import Mathlib

/-!
Shallow embedding of the conversation-flow engine
(`app/services/conversation_flow.py`) and the lead categorizer
(`app/services/user_categorization.py`) of the easybuydubai backend,
with proofs of the behavioural properties stated about them.

Python `datetime.now()` values are modelled as an explicit `now : Nat`
parameter threaded into every operation that reads the clock; Python
answer values (`Any`, in practice a string or a list of strings for
multiple-choice questions, or `None`) are modelled by the inductive
type `Value`.
-/

namespace EasyBuy

/-- Model of a Python answer value: a string, a list of strings
(multiple choice), or `None`. -/
inductive Value where
  | str (s : String)
  | strList (l : List String)
  | none
deriving Repr, DecidableEq

/-- Answer record stored in `responses[question_id]` by
`ConversationFlow.process_response`: `{value, is_other, other_text,
timestamp}`. -/
structure Answer where
  value : Value
  is_other : Bool
  other_text : Option String
  timestamp : Nat
deriving Repr, DecidableEq

/-- The `responses` dict: an insertion-ordered association list from
question id to answer record (Python dict semantics are recovered by
`setResponse`, which overwrites in place). -/
abbrev Responses := List (String × Answer)

/-- Python `self.responses[question_id] = record`: overwrite in place
when the key exists, append otherwise (dict insertion-order
semantics). -/
def setResponse (rs : Responses) (qid : String) (a : Answer) : Responses :=
  if rs.any (fun p => p.1 == qid) then
    rs.map (fun p => if p.1 == qid then (qid, a) else p)
  else
    rs ++ [(qid, a)]

/-- One entry of a question's `options` list: `{label, value, icon}`. -/
structure AnswerOption where
  label : String
  value : String
  icon : String
deriving Repr, DecidableEq

/-- A question dict of the catalog built by
`ConversationFlow._initialize_questions`.  Keys absent from a given
dict (`other_prompt`, `condition`) are modelled as `Option` fields. -/
structure Question where
  id : String
  question : String
  type : String
  options : List AnswerOption
  has_other : Bool
  other_prompt : Option String
  is_optional : Bool
  condition : Option (List (String × List String))
deriving Repr, DecidableEq

/-- A category dict of the catalog built by
`ConversationFlow._initialize_categories`. -/
structure Category where
  id : String
  name : String
  description : String
  estimated_time : ℚ
  icon : String
  is_optional : Bool
deriving Repr, DecidableEq

/-- The fixed category sequence (`ConversationFlow._initialize_categories`). -/
def categories : List Category :=
  [ { id := "profile", name := "Profile", description := "Understanding your situation",
      estimated_time := 1.5, icon := "👤", is_optional := false },
    { id := "budget", name := "Budget", description := "Financial comfort zone",
      estimated_time := 1, icon := "💰", is_optional := false },
    { id := "property", name := "Property", description := "Your dream property",
      estimated_time := 1.5, icon := "🏠", is_optional := false },
    { id := "location", name := "Location", description := "Perfect neighborhood",
      estimated_time := 1, icon := "📍", is_optional := false },
    { id := "timeline", name := "Timeline", description := "Your property journey",
      estimated_time := 0.5, icon := "📅", is_optional := false },
    { id := "lifestyle", name := "Lifestyle", description := "Your lifestyle needs",
      estimated_time := 1, icon := "🌟", is_optional := false },
    { id := "investment", name := "Investment", description := "Investment goals",
      estimated_time := 1, icon := "📈", is_optional := true },
    { id := "priorities", name := "Priorities", description := "Deal makers & breakers",
      estimated_time := 1, icon := "⭐", is_optional := false },
    { id := "decision", name := "Decision", description := "How you make decisions",
      estimated_time := 0.5, icon := "🤔", is_optional := false },
    { id := "contact", name := "Contact", description := "How to reach you",
      estimated_time := 1, icon := "📱", is_optional := false } ]

def profile_1 : Question :=
  { id := "profile_1",
    question := "Are you currently living in Dubai, or planning to move here?",
    type := "single_choice",
    options := [ { label := "Already living here", value := "already_here", icon := "🏙️" },
                 { label := "Planning to move", value := "planning_move", icon := "✈️" },
                 { label := "Investing from abroad", value := "investing_abroad", icon := "🌍" } ],
    has_other := true,
    other_prompt := some "Tell us more about your situation",
    is_optional := false,
    condition := none }

def profile_2 : Question :=
  { id := "profile_2",
    question := "Is this your first time buying property in Dubai?",
    type := "single_choice",
    options := [ { label := "Yes, first time", value := "first_time", icon := "🆕" },
                 { label := "I own property here", value := "owns_property", icon := "🏘️" },
                 { label := "I've bought before but sold", value := "previous_owner", icon := "🔄" } ],
    has_other := false,
    other_prompt := none,
    is_optional := false,
    condition := none }

def profile_3 : Question :=
  { id := "profile_3",
    question := "Who will be living in this property?",
    type := "single_choice",
    options := [ { label := "Just me", value := "single", icon := "👤" },
                 { label := "Me and my partner", value := "couple", icon := "👥" },
                 { label := "My family", value := "family", icon := "👨‍👩‍👧‍👦" },
                 { label := "It's an investment", value := "investment", icon := "💼" } ],
    has_other := true,
    other_prompt := some "Tell us about who'll be living there",
    is_optional := false,
    condition := none }

def budget_1 : Question :=
  { id := "budget_1",
    question := "What's your comfortable budget range?",
    type := "single_choice",
    options := [ { label := "Under 1M AED", value := "under_1m", icon := "💵" },
                 { label := "1M - 2M AED", value := "1m_2m", icon := "💵" },
                 { label := "2M - 3.5M AED", value := "2m_3.5m", icon := "💵" },
                 { label := "3.5M - 5M AED", value := "3.5m_5m", icon := "💵" },
                 { label := "5M+ AED", value := "5m_plus", icon := "💵" },
                 { label := "Flexible/Not sure", value := "flexible", icon := "🤷" } ],
    has_other := true,
    other_prompt := some "Share your budget thoughts",
    is_optional := false,
    condition := none }

def budget_2 : Question :=
  { id := "budget_2",
    question := "How are you planning to purchase?",
    type := "single_choice",
    options := [ { label := "Cash purchase", value := "cash", icon := "💳" },
                 { label := "Will need a mortgage", value := "mortgage", icon := "🏦" },
                 { label := "Mix of both", value := "mix", icon := "💰" } ],
    has_other := false,
    other_prompt := none,
    is_optional := false,
    condition := none }

def budget_3 : Question :=
  { id := "budget_3",
    question := "Have you spoken to any banks yet?",
    type := "single_choice",
    options := [ { label := "Yes, pre-approved", value := "pre_approved", icon := "✅" },
                 { label := "Planning to", value := "planning", icon := "📅" },
                 { label := "Need guidance", value := "need_guidance", icon := "❓" },
                 { label := "Rather not say", value := "private", icon := "🤐" } ],
    has_other := false,
    other_prompt := none,
    is_optional := false,
    condition := some [("budget_2", ["mortgage", "mix"])] }

def property_1 : Question :=
  { id := "property_1",
    question := "Are you thinking apartment living or do you want your own villa?",
    type := "single_choice",
    options := [ { label := "Apartment", value := "apartment", icon := "🏢" },
                 { label := "Villa", value := "villa", icon := "🏡" },
                 { label := "Townhouse", value := "townhouse", icon := "🏘️" },
                 { label := "Open to suggestions", value := "open", icon := "🤔" } ],
    has_other := true,
    other_prompt := some "What type of property interests you?",
    is_optional := false,
    condition := none }

def property_2 : Question :=
  { id := "property_2",
    question := "How much space do you need?",
    type := "single_choice",
    options := [ { label := "Cozy studio", value := "studio", icon := "🛏️" },
                 { label := "1 bedroom", value := "1br", icon := "🛏️" },
                 { label := "2 bedrooms", value := "2br", icon := "🛏️" },
                 { label := "3 bedrooms", value := "3br", icon := "🛏️" },
                 { label := "4 bedrooms", value := "4br", icon := "🛏️" },
                 { label := "5+ bedrooms", value := "5br_plus", icon := "🛏️" } ],
    has_other := false,
    other_prompt := none,
    is_optional := false,
    condition := none }

def property_3 : Question :=
  { id := "property_3",
    question := "Do you prefer shiny and new, or are established properties fine?",
    type := "single_choice",
    options := [ { label := "Brand new only", value := "new_only", icon := "✨" },
                 { label := "Relatively new (under 5 years)", value := "relatively_new", icon := "🆕" },
                 { label := "Age doesn't matter if nice", value := "age_flexible", icon := "👍" } ],
    has_other := false,
    other_prompt := none,
    is_optional := false,
    condition := none }

def location_1 : Question :=
  { id := "location_1",
    question := "What kind of vibe are you looking for?",
    type := "single_choice",
    options := [ { label := "Beachside & resort feel", value := "beachside", icon := "🏖️" },
                 { label := "Urban & city center", value := "urban", icon := "🏙️" },
                 { label := "Family community", value := "family_community", icon := "👨‍👩‍👧" },
                 { label := "Quiet & green", value := "quiet_green", icon := "🌳" } ],
    has_other := true,
    other_prompt := some "Describe your ideal neighborhood vibe",
    is_optional := false,
    condition := none }

def location_2 : Question :=
  { id := "location_2",
    question := "Tell me about your typical day - do you need to commute somewhere regularly?",
    type := "single_choice",
    options := [ { label := "Yes, to DIFC/Downtown", value := "difc_downtown", icon := "🏢" },
                 { label := "Yes, to Marina/JLT", value := "marina_jlt", icon := "🏢" },
                 { label := "Yes, to Abu Dhabi", value := "abu_dhabi", icon := "🏢" },
                 { label := "Work from home", value := "wfh", icon := "🏠" },
                 { label := "Retired/flexible", value := "flexible", icon := "😌" },
                 { label := "Multiple locations", value := "multiple", icon := "🚗" } ],
    has_other := true,
    other_prompt := some "Where do you need to commute to?",
    is_optional := false,
    condition := none }

def timeline_1 : Question :=
  { id := "timeline_1",
    question := "When do you hope to move in?",
    type := "single_choice",
    options := [ { label := "ASAP", value := "asap", icon := "🚀" },
                 { label := "Next 3 months", value := "3_months", icon := "📅" },
                 { label := "3-6 months", value := "3_6_months", icon := "📅" },
                 { label := "6-12 months", value := "6_12_months", icon := "📅" },
                 { label := "Just planning ahead", value := "planning", icon := "🔮" } ],
    has_other := false,
    other_prompt := none,
    is_optional := false,
    condition := none }

def timeline_2 : Question :=
  { id := "timeline_2",
    question := "What's bringing you to the market now?",
    type := "single_choice",
    options := [ { label := "Lease ending soon", value := "lease_ending", icon := "📝" },
                 { label := "Family growing", value := "family_growing", icon := "👶" },
                 { label := "Good time to invest", value := "investment_timing", icon := "📈" },
                 { label := "Just got to Dubai", value := "new_to_dubai", icon := "✈️" },
                 { label := "Been planning this", value := "planned", icon := "📋" } ],
    has_other := true,
    other_prompt := some "What's your motivation?",
    is_optional := false,
    condition := none }

def lifestyle_1 : Question :=
  { id := "lifestyle_1",
    question := "Do schools play a part in your location choice?",
    type := "single_choice",
    options := [ { label := "Very important", value := "very_important", icon := "🎓" },
                 { label := "Somewhat important", value := "somewhat", icon := "📚" },
                 { label := "Not a factor", value := "not_factor", icon := "❌" } ],
    has_other := false,
    other_prompt := none,
    is_optional := false,
    condition := some [("profile_3", ["family"])] }

def lifestyle_2 : Question :=
  { id := "lifestyle_2",
    question := "What would make your home perfect? (Pick what matters)",
    type := "multiple_choice",
    options := [ { label := "Pool for weekends", value := "pool", icon := "🏊" },
                 { label := "Gym to stay fit", value := "gym", icon := "💪" },
                 { label := "Kids' play areas", value := "kids_area", icon := "🎮" },
                 { label := "Pet-friendly", value := "pet_friendly", icon := "🐕" },
                 { label := "Great views", value := "views", icon := "🌅" },
                 { label := "Peaceful garden", value := "garden", icon := "🌿" } ],
    has_other := true,
    other_prompt := some "What else would make it perfect?",
    is_optional := true,
    condition := none }

def investment_1 : Question :=
  { id := "investment_1",
    question := "What's your main goal with this investment?",
    type := "single_choice",
    options := [ { label := "Rental income", value := "rental", icon := "💰" },
                 { label := "Long-term appreciation", value := "appreciation", icon := "📈" },
                 { label := "Holiday home", value := "holiday", icon := "🏖️" },
                 { label := "Future residence", value := "future_residence", icon := "🏠" } ],
    has_other := true,
    other_prompt := some "Tell us about your investment goals",
    is_optional := false,
    condition := some [("profile_3", ["investment"])] }

def investment_2 : Question :=
  { id := "investment_2",
    question := "Are you looking for something that rents easily?",
    type := "single_choice",
    options := [ { label := "Yes, rental yield is key", value := "yield_key", icon := "🔑" },
                 { label := "Nice to have", value := "nice_to_have", icon := "👍" },
                 { label := "Not important", value := "not_important", icon := "🤷" } ],
    has_other := false,
    other_prompt := none,
    is_optional := false,
    condition := some [("profile_3", ["investment"])] }

def priorities_1 : Question :=
  { id := "priorities_1",
    question := "What would make you say 'this is the one!'?",
    type := "multiple_choice",
    options := [ { label := "Perfect location", value := "location", icon := "📍" },
                 { label := "Great value", value := "value", icon := "💎" },
                 { label := "Amazing view", value := "view", icon := "🌆" },
                 { label := "Love the community", value := "community", icon := "🏘️" },
                 { label := "Just feels right", value := "feeling", icon := "❤️" } ],
    has_other := true,
    other_prompt := some "What else would seal the deal?",
    is_optional := false,
    condition := none }

def priorities_2 : Question :=
  { id := "priorities_2",
    question := "What would make you walk away immediately?",
    type := "multiple_choice",
    options := [ { label := "Too noisy", value := "noisy", icon := "🔊" },
                 { label := "No parking", value := "no_parking", icon := "🚗" },
                 { label := "Needs too much work", value := "needs_work", icon := "🔨" },
                 { label := "Bad location", value := "bad_location", icon := "❌" },
                 { label := "Over budget", value := "over_budget", icon := "💸" } ],
    has_other := true,
    other_prompt := some "What else is a deal breaker?",
    is_optional := true,
    condition := none }

def decision_1 : Question :=
  { id := "decision_1",
    question := "When you find the right place, what happens next?",
    type := "single_choice",
    options := [ { label := "I can decide quickly", value := "quick_decision", icon := "⚡" },
                 { label := "Need to discuss with partner", value := "partner_discuss", icon := "💑" },
                 { label := "Need family approval", value := "family_approval", icon := "👨‍👩‍👧‍👦" },
                 { label := "Want to think about it", value := "think_about", icon := "🤔" } ],
    has_other := false,
    other_prompt := none,
    is_optional := false,
    condition := none }

def decision_2 : Question :=
  { id := "decision_2",
    question := "How do you prefer to explore properties?",
    type := "single_choice",
    options := [ { label := "In-person viewings", value := "in_person", icon := "🚶" },
                 { label := "Virtual tours first", value := "virtual_first", icon := "💻" },
                 { label := "Both work for me", value := "both", icon := "🔄" },
                 { label := "Send me details first", value := "details_first", icon := "📧" } ],
    has_other := false,
    other_prompt := none,
    is_optional := false,
    condition := none }

def contact_1 : Question :=
  { id := "contact_1",
    question := "How would you prefer I share property options with you?",
    type := "multiple_choice",
    options := [ { label := "WhatsApp messages", value := "whatsapp", icon := "📱" },
                 { label := "Email with details", value := "email", icon := "📧" },
                 { label := "Quick call", value := "call", icon := "📞" },
                 { label := "All of the above", value := "all", icon := "✅" } ],
    has_other := false,
    other_prompt := none,
    is_optional := false,
    condition := none }

def contact_2 : Question :=
  { id := "contact_2",
    question := "When's usually good to reach you?",
    type := "single_choice",
    options := [ { label := "Mornings", value := "morning", icon := "🌅" },
                 { label := "Afternoons", value := "afternoon", icon := "☀️" },
                 { label := "Evenings", value := "evening", icon := "🌙" },
                 { label := "Weekends", value := "weekends", icon := "📅" },
                 { label := "Anytime is fine", value := "anytime", icon := "⏰" } ],
    has_other := false,
    other_prompt := none,
    is_optional := false,
    condition := none }

/-- The fixed question catalog, keyed by category id
(`ConversationFlow._initialize_questions`). -/
def questions : List (String × List Question) :=
  [ ("profile", [profile_1, profile_2, profile_3]),
    ("budget", [budget_1, budget_2, budget_3]),
    ("property", [property_1, property_2, property_3]),
    ("location", [location_1, location_2]),
    ("timeline", [timeline_1, timeline_2]),
    ("lifestyle", [lifestyle_1, lifestyle_2]),
    ("investment", [investment_1, investment_2]),
    ("priorities", [priorities_1, priorities_2]),
    ("decision", [decision_1, decision_2]),
    ("contact", [contact_1, contact_2]) ]

/-- Mutable per-session state of a `ConversationFlow` instance.  The
category/question catalog is fixed (see `categories`, `questions`) and
therefore kept at top level rather than in the state. -/
structure FlowState where
  currentCategoryIndex : Nat
  currentQuestionIndex : Nat
  responses : Responses
  additionalNotes : List (String × List (String × Nat))
  skippedCategories : List String
  startTime : Nat
deriving Repr, DecidableEq

/-- `self.estimated_total_time = 10` (minutes). -/
def estimated_total_time : Nat := 10

/-- `ConversationFlow.__init__`: cursor (0,0), empty collections,
`start_time = now`. -/
def initFlow (now : Nat) : FlowState :=
  { currentCategoryIndex := 0
    currentQuestionIndex := 0
    responses := []
    additionalNotes := []
    skippedCategories := []
    startTime := now }

/-- `ConversationFlow.restart_flow`: reset the cursor and the start
time; keep responses, additional notes and skipped categories. -/
def restart_flow (s : FlowState) (now : Nat) : FlowState :=
  { s with currentCategoryIndex := 0, currentQuestionIndex := 0, startTime := now }

/-- Python membership test `response_value in values` where the stored
value may be a string, a list, or `None`: only a string can equal an
element of a list of strings. -/
def valueInStrList (v : Value) (values : List String) : Bool :=
  match v with
  | Value.str s => values.contains s
  | Value.strList _ => false
  | Value.none => false

/-- The condition check inlined in `get_current_question` (lines
491-499 of `conversation_flow.py`): every `(key, values)` entry of the
question's `condition` dict must pass, where an entry passes when the
key is absent from `responses`, or present with a stored value that is
a member of `values`. -/
def conditionMet (rs : Responses) (q : Question) : Bool :=
  match q.condition with
  | Option.none => true
  | Option.some cond =>
      cond.all (fun kv =>
        match rs.lookup kv.1 with
        | Option.some a => valueInStrList a.value kv.2
        | Option.none => true)

/-- The `while self.current_question_index < len(questions)` loop of
`get_current_question`, iterating over the question list from the
current index: returns the first index (and question) at or after `i`
whose condition is met, or `Option.none` when the index runs off the
end of the list.  The list argument is the suffix `qs.drop i`. -/
def findQuestionAux (rs : Responses) : List Question → Nat → Option (Nat × Question)
  | [], _ => Option.none
  | q :: rest, i =>
      if conditionMet rs q then Option.some (i, q)
      else findQuestionAux rs rest (i + 1)

/-- Entry point of the question-scanning loop at index `i` of `qs`. -/
def findQuestion (rs : Responses) (qs : List Question) (i : Nat) : Option (Nat × Question) :=
  findQuestionAux rs (qs.drop i) i

/-- Body of `ConversationFlow.get_current_question`, written with the
self-recursion's decreasing measure `categories.length -
current_category_index` as an explicit structural argument so that the
definition computes; `get_current_question` instantiates it.  Under
that instantiation the fuel-0 case coincides with the source's
`current_category_index >= len(self.categories)` early return. -/
def gcqGo : Nat → FlowState → Option Question × FlowState
  | 0, s => (Option.none, s)
  | n + 1, s =>
      if h : s.currentCategoryIndex < categories.length then
        match questions.lookup (categories.get ⟨s.currentCategoryIndex, h⟩).id with
        | Option.some qs =>
            match findQuestion s.responses qs s.currentQuestionIndex with
            | Option.some iq => (Option.some iq.2, { s with currentQuestionIndex := iq.1 })
            | Option.none =>
                gcqGo n { s with currentCategoryIndex := s.currentCategoryIndex + 1,
                                 currentQuestionIndex := 0 }
        | Option.none =>
            gcqGo n { s with currentCategoryIndex := s.currentCategoryIndex + 1,
                             currentQuestionIndex := 0 }
      else (Option.none, s)

/-- `ConversationFlow.get_current_question`: returns the question the
cursor converges to (or `Option.none` once the flow is complete)
together with the updated state (the auto-skip side effect on the
cursor). -/
def get_current_question (s : FlowState) : Option Question × FlowState :=
  gcqGo (categories.length - s.currentCategoryIndex) s

/-- `ConversationFlow.process_response`: store the answer, advance the
question index, then read `self.categories[self.current_category_index]`
— which raises `IndexError` when the flow is already complete; the
`Bool` component is `false` exactly on that raising path, and the
returned state carries the mutations performed before the raise
(Python object state survives the exception). -/
def process_response (s : FlowState) (question_id : String) (response : Value)
    (is_other : Bool) (other_text : Option String) (now : Nat) : FlowState × Bool :=
  let s := { s with responses := setResponse s.responses question_id
                      { value := response, is_other := is_other,
                        other_text := other_text, timestamp := now } }
  let s := { s with currentQuestionIndex := s.currentQuestionIndex + 1 }
  if h : s.currentCategoryIndex < categories.length then
    let category := categories.get ⟨s.currentCategoryIndex, h⟩
    let qs := (questions.lookup category.id).getD []
    if qs.length ≤ s.currentQuestionIndex then
      ({ s with currentCategoryIndex := s.currentCategoryIndex + 1,
                currentQuestionIndex := 0 }, true)
    else (s, true)
  else (s, false)

/-- `ConversationFlow.add_category_note`: append `{note, timestamp}`
to the category's note list, creating the list when absent. -/
def add_category_note (s : FlowState) (category_id : String) (note : String)
    (now : Nat) : FlowState :=
  let notes :=
    if s.additionalNotes.any (fun p => p.1 == category_id) then
      s.additionalNotes.map (fun p => if p.1 == category_id then (p.1, p.2 ++ [(note, now)]) else p)
    else
      s.additionalNotes ++ [(category_id, [(note, now)])]
  { s with additionalNotes := notes }

/-- `ConversationFlow.skip_category`: append the id to
`skipped_categories` unconditionally; advance the cursor only when the
first category with that id is the one the cursor points at. -/
def skip_category (s : FlowState) (category_id : String) : FlowState :=
  let s := { s with skippedCategories := s.skippedCategories ++ [category_id] }
  match categories.findIdx? (fun cat => cat.id == category_id) with
  | Option.some i =>
      if i == s.currentCategoryIndex then
        { s with currentCategoryIndex := s.currentCategoryIndex + 1,
                 currentQuestionIndex := 0 }
      else s
  | Option.none => s

/-- Python 3 `round(q)`: round half to even, to an integer. -/
def pyRound (q : ℚ) : Int :=
  let f := ⌊q⌋
  let r := q - (f : ℚ)
  if r < 1 / 2 then f
  else if 1 / 2 < r then f + 1
  else if f % 2 = 0 then f else f + 1

/-- Python 3 `round(q, 1)`: round half to even, to one decimal. -/
def pyRound1 (q : ℚ) : ℚ :=
  (pyRound (q * 10) : ℚ) / 10

/-- Result record of `ConversationFlow.get_progress`. -/
structure Progress where
  current_category : String
  current_category_name : String
  categories_completed : Nat
  total_categories : Nat
  questions_answered : Nat
  total_questions : Nat
  percentage_complete : Int
  time_elapsed : ℚ
  estimated_remaining : ℚ
  skipped_categories : List String
deriving Repr, DecidableEq

/-- `ConversationFlow.get_progress`. -/
def get_progress (s : FlowState) (now : Nat) : Progress :=
  let total_categories := categories.length
  let completed_categories := s.currentCategoryIndex
  let answered_questions := s.responses.length
  let total_questions := (questions.map (fun p => p.2.length)).sum
  let elapsed_time : ℚ := ((now : ℚ) - (s.startTime : ℚ)) / 60
  let remaining_categories : Int :=
    (total_categories : Int) - (completed_categories : Int) - (s.skippedCategories.length : Int)
  let avg_time_per_category : ℚ := (estimated_total_time : ℚ) / (total_categories : ℚ)
  let estimated_remaining : ℚ := (remaining_categories : ℚ) * avg_time_per_category
  { current_category :=
      if h : completed_categories < total_categories then
        (categories.get ⟨completed_categories, h⟩).id
      else "complete"
    current_category_name :=
      if h : completed_categories < total_categories then
        (categories.get ⟨completed_categories, h⟩).name
      else "Complete"
    categories_completed := completed_categories
    total_categories := total_categories
    questions_answered := answered_questions
    total_questions := total_questions
    percentage_complete :=
      pyRound (((completed_categories : ℚ) / (total_categories : ℚ)) * 100)
    time_elapsed := pyRound1 elapsed_time
    estimated_remaining := pyRound1 estimated_remaining
    skipped_categories := s.skippedCategories }

/-- One entry of `ConversationFlow.get_timeline_status`. -/
structure TimelineEntry where
  id : String
  name : String
  icon : String
  status : String
  is_optional : Bool
deriving Repr, DecidableEq

/-- `ConversationFlow.get_timeline_status`. -/
def get_timeline_status (s : FlowState) : List TimelineEntry :=
  categories.enum.map (fun ic =>
    { id := ic.2.id
      name := ic.2.name
      icon := ic.2.icon
      status :=
        if ic.1 < s.currentCategoryIndex then "completed"
        else if ic.1 == s.currentCategoryIndex then "active"
        else if s.skippedCategories.contains ic.2.id then "skipped"
        else "upcoming"
      is_optional := ic.2.is_optional })

/-- `ConversationFlow.is_complete`:
`current_category_index >= len(self.categories)`. -/
def is_complete (s : FlowState) : Bool :=
  decide (categories.length ≤ s.currentCategoryIndex)

/-- Result record of `ConversationFlow.get_summary`. -/
structure Summary where
  responses : Responses
  additional_notes : List (String × List (String × Nat))
  skipped_categories : List String
  completion_time : ℚ
  is_complete : Bool
deriving Repr, DecidableEq

/-- `ConversationFlow.get_summary`. -/
def get_summary (s : FlowState) (now : Nat) : Summary :=
  { responses := s.responses
    additional_notes := s.additionalNotes
    skipped_categories := s.skippedCategories
    completion_time := ((now : ℚ) - (s.startTime : ℚ)) / 60
    is_complete := is_complete s }

/-- Python `responses.get(qid, {}).get("value")`: the stored value, or
`Value.none` when the question id is absent (Python returns `None` in
both the absent case and the stored-`None` case, so the two collapse
to `Value.none` here exactly as in the source). -/
def getValue (rs : Responses) (qid : String) : Value :=
  match rs.lookup qid with
  | Option.some a => a.value
  | Option.none => Value.none

/-- Python truthiness of an answer value (`if budget_response ...`):
a non-empty string or a non-empty list is truthy; `None` is falsy. -/
def vtruthy (v : Value) : Bool :=
  match v with
  | Value.str s => !(s == "")
  | Value.strList l => !l.isEmpty
  | Value.none => false

/-- Python substring test `pat in s` on strings
(`"investment_minded" in persona.get("type", "")`). -/
def substrIn (pat s : String) : Bool :=
  s.toList.tails.any (fun t => pat.toList.isPrefixOf t)

/-- Whether an answer value is a list.  A Python list is unhashable,
so using it as a `dict.get` key raises `TypeError`; this predicate
characterises the values on which the score dict lookups of
`_calculate_lead_score` raise. -/
def isListValue : Value → Bool
  | Value.strList _ => true
  | _ => false

/-- Buyer-type dict returned by
`UserCategorization._determine_buyer_type`. -/
structure BuyerType where
  type : String
  label : String
  description : String
  priority : String
  follow_up : String
deriving Repr, DecidableEq

/-- Persona dict returned by `UserCategorization._identify_persona`. -/
structure Persona where
  type : String
  label : String
  key_needs : List String
deriving Repr, DecidableEq

/-- Urgency dict returned by `UserCategorization._determine_urgency`. -/
structure Urgency where
  level : String
  label : String
  action : String
  reason : Value
deriving Repr, DecidableEq

/-- Recommendations dict returned by
`UserCategorization._generate_recommendations`. -/
structure Recommendations where
  agent_type : String
  initial_action : String
  properties_to_show : String
  follow_up_strategy : String
  key_talking_points : List String
deriving Repr, DecidableEq

/-- Result dict of `UserCategorization.categorize_user`. -/
structure CategorizationResult where
  lead_score : Nat
  buyer_type : BuyerType
  persona : Persona
  urgency_level : Urgency
  service_needs : List String
  recommendations : Recommendations
  categorized_at : Nat
deriving Repr, DecidableEq

/-- `UserCategorization._calculate_lead_score`: additive rubric, each
branch contributing a non-negative number of points, capped by
`min(100, score)`.  The two dict lookups keyed directly by an answer
value — `timeline_scores.get(timeline_response, 0)` (line 61) and
`decision_scores.get(decision, 0)` (line 100) — raise `TypeError`
when the stored value is a list (lists are unhashable);
`Option.none` models that raise, occurring at the same two program
points.  Every other branch uses only `==`, membership or truthiness,
none of which can raise. -/
def calculate_lead_score (responses : Responses) : Option Nat :=
  let timeline_response := getValue responses "timeline_1"
  match timeline_response with
  | Value.strList _ => Option.none
  | _ =>
    let timelineScore : Nat :=
      match timeline_response with
      | Value.str "asap" => 30
      | Value.str "3_months" => 25
      | Value.str "3_6_months" => 15
      | Value.str "6_12_months" => 10
      | Value.str "planning" => 5
      | _ => 0
    let budget_response := getValue responses "budget_1"
    let budgetScore : Nat :=
      if vtruthy budget_response && !(budget_response == Value.str "flexible") then 20
      else if budget_response == Value.str "flexible" then 10
      else 0
    let payment_method := getValue responses "budget_2"
    let bank_status := getValue responses "budget_3"
    let financingScore : Nat :=
      if payment_method == Value.str "cash" then 15
      else if bank_status == Value.str "pre_approved" then 15
      else if valueInStrList payment_method ["mortgage", "mix"] && bank_status == Value.str "planning" then 10
      else if valueInStrList payment_method ["mortgage", "mix"] then 5
      else 0
    let property_type := getValue responses "property_1"
    let bedrooms := getValue responses "property_2"
    let propertyScore : Nat :=
      (if vtruthy property_type && !(property_type == Value.str "open") then 8 else 0) +
      (if vtruthy bedrooms then 7 else 0)
    let decision := getValue responses "decision_1"
    match decision with
    | Value.strList _ => Option.none
    | _ =>
      let decisionScore : Nat :=
        match decision with
        | Value.str "quick_decision" => 10
        | Value.str "partner_discuss" => 7
        | Value.str "family_approval" => 5
        | Value.str "think_about" => 3
        | _ => 0
      let total_responses := responses.length
      let engagementScore : Nat :=
        if 20 ≤ total_responses then 10
        else if 15 ≤ total_responses then 8
        else if 10 ≤ total_responses then 5
        else 3
      Option.some (Nat.min 100 (timelineScore + budgetScore + financingScore + propertyScore +
        decisionScore + engagementScore))

/-- `UserCategorization._determine_buyer_type`: score thresholds
evaluated high to low (the `looking_status` read in the source is
never used). -/
def determine_buyer_type (lead_score : Nat) (responses : Responses) : BuyerType :=
  let _looking_status := getValue responses "timeline_2"
  if 80 ≤ lead_score then
    { type := "serious_buyer", label := "Serious Buyer",
      description := "Ready to purchase, clear requirements, financing sorted",
      priority := "high", follow_up := "immediate" }
  else if 60 ≤ lead_score then
    { type := "active_looker", label := "Active Looker",
      description := "Actively searching, some clarity needed",
      priority := "medium-high", follow_up := "within_24_hours" }
  else if 40 ≤ lead_score then
    { type := "early_explorer", label := "Early Explorer",
      description := "Researching options, longer timeline",
      priority := "medium", follow_up := "within_week" }
  else
    { type := "info_seeker", label := "Information Seeker",
      description := "Just browsing, gathering information",
      priority := "low", follow_up := "nurture_campaign" }

/-- `UserCategorization._identify_persona`: the `personas` list is
built by appending each matching persona in the source's fixed order,
and `personas[0]` (the first match) is returned, with a
`general_buyer` default when no predicate matches. -/
def identify_persona (responses : Responses) : Persona :=
  let who_living := getValue responses "profile_3"
  let first_time := getValue responses "profile_2"
  let budget := getValue responses "budget_1"
  let property_type := getValue responses "property_1"
  let schools := getValue responses "lifestyle_1"
  let investment_goal := getValue responses "investment_1"
  let personas : List Persona :=
    (if who_living == Value.str "family" || valueInStrList schools ["very_important", "somewhat"] then
      [{ type := "family_focused", label := "Family-Focused Buyer",
         key_needs := ["schools", "safe_community", "family_amenities"] }]
     else []) ++
    (if who_living == Value.str "investment" || vtruthy investment_goal then
      [{ type := "investment_minded", label := "Investment-Minded",
         key_needs := ["roi_potential", "rental_yield", "location_growth"] }]
     else []) ++
    (if valueInStrList budget ["3.5m_5m", "5m_plus"] && property_type == Value.str "villa" then
      [{ type := "luxury_seeker", label := "Luxury Seeker",
         key_needs := ["premium_locations", "high_end_amenities", "exclusivity"] }]
     else []) ++
    (if first_time == Value.str "first_time" then
      [{ type := "first_timer", label := "First-Time Buyer",
         key_needs := ["guidance", "education", "trusted_advisor"] }]
     else []) ++
    (if valueInStrList budget ["under_1m", "1m_2m"] && !(who_living == Value.str "investment") then
      [{ type := "value_hunter", label := "Value Hunter",
         key_needs := ["affordable_options", "payment_plans", "emerging_areas"] }]
     else []) ++
    (if first_time == Value.str "owns_property" then
      [{ type := "upgrader", label := "Property Upgrader",
         key_needs := ["better_location", "more_space", "lifestyle_upgrade"] }]
     else [])
  match personas with
  | p :: _ => p
  | [] =>
      { type := "general_buyer", label := "General Buyer",
        key_needs := ["suitable_property", "fair_price", "good_location"] }

/-- `UserCategorization._determine_urgency`. -/
def determine_urgency (responses : Responses) : Urgency :=
  let timeline := getValue responses "timeline_1"
  let reason := getValue responses "timeline_2"
  if valueInStrList timeline ["asap", "3_months"] || valueInStrList reason ["lease_ending", "new_to_dubai"] then
    { level := "high", label := "High Urgency", action := "immediate_attention", reason := reason }
  else if timeline == Value.str "3_6_months" then
    { level := "moderate", label := "Moderate Urgency", action := "regular_follow_up", reason := reason }
  else
    { level := "low", label := "Low Urgency", action := "nurture_campaign", reason := reason }

/-- `UserCategorization._identify_service_needs`: the `services` list
accumulated by the source's sequence of appends, with the default pair
when nothing matched. -/
def identify_service_needs (responses : Responses) : List String :=
  let payment_method := getValue responses "budget_2"
  let bank_status := getValue responses "budget_3"
  let financing : List String :=
    if valueInStrList payment_method ["mortgage", "mix"] then
      if bank_status == Value.str "need_guidance" then ["mortgage_assistance"]
      else if bank_status == Value.str "planning" then ["bank_introduction"]
      else []
    else []
  let first_time := getValue responses "profile_2"
  let firstTimer : List String :=
    if first_time == Value.str "first_time" then ["full_guidance", "legal_assistance"] else []
  let viewing_pref := getValue responses "decision_2"
  let viewing : List String :=
    if viewing_pref == Value.str "virtual_first" then ["virtual_tours"]
    else if viewing_pref == Value.str "in_person" then ["property_viewings"]
    else []
  let investor : List String :=
    if getValue responses "profile_3" == Value.str "investment" then
      ["investment_analysis", "rental_management"]
    else []
  let services := financing ++ firstTimer ++ viewing ++ investor
  if services.isEmpty then ["property_matching", "viewing_arrangement"] else services

/-- `UserCategorization._generate_recommendations`: fixed lookup
tables keyed on persona type (substring tests, as in the source),
buyer-type tier and the buyer type's follow-up value. -/
def generate_recommendations (buyer_type : BuyerType) (persona : Persona)
    (_service_needs : List String) : Recommendations :=
  let agent_type :=
    if substrIn "investment_minded" persona.type then "Investment specialist"
    else if substrIn "luxury_seeker" persona.type then "Luxury property expert"
    else if substrIn "family_focused" persona.type then "Family homes specialist"
    else "General property consultant"
  let initial_action :=
    if buyer_type.type == "serious_buyer" then "Call immediately and arrange viewings"
    else if buyer_type.type == "active_looker" then "Send curated property selection"
    else "Send welcome email with market guide"
  let properties_to_show :=
    if buyer_type.type == "serious_buyer" then "5-7 best matches, ready to visit"
    else if buyer_type.type == "active_looker" then "3-5 strong options"
    else "2-3 examples to gauge interest"
  let key_talking_points :=
    if persona.type == "family_focused" then
      ["School proximity and quality", "Safe, family-friendly communities",
       "Parks and recreational facilities"]
    else if persona.type == "investment_minded" then
      ["ROI and rental yields", "Growth potential areas",
       "Developer reputation and track record"]
    else if persona.type == "first_timer" then
      ["Step-by-step buying process", "Ownership laws and regulations",
       "Hidden costs and fees"]
    else
      ["Property features and amenities", "Location advantages", "Value proposition"]
  { agent_type := agent_type
    initial_action := initial_action
    properties_to_show := properties_to_show
    follow_up_strategy := buyer_type.follow_up
    key_talking_points := key_talking_points }

/-- `UserCategorization.categorize_user`: the main categorization
function (its `additional_notes` and `completion_info` parameters are
accepted but unused by the source logic; `categorized_at` is the
current time).  `_calculate_lead_score` is called first and its
`TypeError` on a list-valued `timeline_1` or `decision_1` answer
propagates out of `categorize_user`, modelled by `Option.none`; the
remaining helpers use only defaulting lookups, equality, membership
and truthiness and cannot raise. -/
def categorize_user (responses : Responses)
    (_additional_notes : List (String × List (String × Nat)))
    (_completion_info : Summary) (now : Nat) : Option CategorizationResult :=
  match calculate_lead_score responses with
  | Option.none => Option.none
  | Option.some lead_score =>
    let buyer_type := determine_buyer_type lead_score responses
    let persona := identify_persona responses
    let urgency := determine_urgency responses
    let service_needs := identify_service_needs responses
    let recommendations := generate_recommendations buyer_type persona service_needs
    Option.some
      { lead_score := lead_score
        buyer_type := buyer_type
        persona := persona
        urgency_level := urgency
        service_needs := service_needs
        recommendations := recommendations
        categorized_at := now }

/-- Postcondition of one `get_current_question` call on state `s` with
result `r`: only the cursor may change (and never backward), and a
returned question sits at the final cursor with its condition check
passing against the (unchanged) responses. -/
def GcqPost (s : FlowState) (r : Option Question × FlowState) : Prop :=
  r.2.responses = s.responses ∧
  r.2.additionalNotes = s.additionalNotes ∧
  r.2.skippedCategories = s.skippedCategories ∧
  r.2.startTime = s.startTime ∧
  s.currentCategoryIndex ≤ r.2.currentCategoryIndex ∧
  (r.2.currentCategoryIndex = s.currentCategoryIndex →
    s.currentQuestionIndex ≤ r.2.currentQuestionIndex) ∧
  (r.1 = Option.none → categories.length ≤ r.2.currentCategoryIndex) ∧
  (∀ q : Question, r.1 = Option.some q →
    ∃ (h : r.2.currentCategoryIndex < categories.length) (qs : List Question),
      questions.lookup (categories.get ⟨r.2.currentCategoryIndex, h⟩).id = Option.some qs ∧
      r.2.currentQuestionIndex < qs.length ∧
      qs.get? r.2.currentQuestionIndex = Option.some q ∧
      conditionMet s.responses q = true)

/-- One state-mutating core operation, excluding `restart_flow`
(`get_progress`, `get_timeline_status`, `is_complete` and
`get_summary` are pure reads and do not change the state). -/
inductive Step : FlowState → FlowState → Prop
  | current_question (s : FlowState) : Step s (get_current_question s).2
  | answer (s : FlowState) (qid : String) (v : Value) (io : Bool)
      (ot : Option String) (now : Nat) : Step s (process_response s qid v io ot now).1
  | note (s : FlowState) (cid txt : String) (now : Nat) :
      Step s (add_category_note s cid txt now)
  | skip (s : FlowState) (cid : String) : Step s (skip_category s cid)

/-- Reachability by any sequence of core operations excluding
`restart_flow`. -/
abbrev Reach : FlowState → FlowState → Prop :=
  Relation.ReflTransGen Step

/-- Submitting one answer through `process_response` (test harness for
concrete executions; the state component of the result, whether or not
the call raised). -/
def ansStep (s : FlowState) (qid : String) : FlowState :=
  (process_response s qid (Value.str "any") false Option.none 0).1

/-- Concrete reachable state: five answers submitted with ids that
never answer `budget_2`, leaving the cursor at the `budget_3`
question (category index 1, question index 2) with `budget_2` absent
from the responses. -/
def condGapState : FlowState :=
  List.foldl ansStep (initFlow 0) ["x1", "x2", "x3", "x4", "x5"]

/-- Concrete reachable state: `skip_category "budget"` called twice
from a fresh flow. -/
def doubleSkipState : FlowState :=
  skip_category (skip_category (initFlow 0) "budget") "budget"

/-- Concrete reachable complete state: every category skipped in
catalog order from a fresh flow. -/
def completedState : FlowState :=
  List.foldl skip_category (initFlow 0) (categories.map (fun c => c.id))

/-- Concrete answer set containing only `profile_3 = "family"`. -/
def familyResponses : Responses :=
  [("profile_3", { value := Value.str "family", is_other := false,
                   other_text := Option.none, timestamp := 0 })]

/-- Concrete reachable state: a single submitted answer storing a list
value under `timeline_1` (multiple-choice style answers are lists, and
`process_response` stores any value unvalidated). -/
def listTimelineState : FlowState :=
  (process_response (initFlow 0) "timeline_1" (Value.strList ["asap"]) false Option.none 0).1

/-- Concrete answer set storing a list value under `decision_1`. -/
def listDecisionResponses : Responses :=
  [("decision_1", { value := Value.strList ["quick_decision"], is_other := false,
                    other_text := Option.none, timestamp := 0 })]

theorem findQuestionAux_some (rs : Responses) :
    ∀ (l : List Question) (i j : Nat) (q : Question),
      findQuestionAux rs l i = Option.some (j, q) →
      i ≤ j ∧ j - i < l.length ∧ l.get? (j - i) = Option.some q ∧
        conditionMet rs q = true := by
  intro l
  induction l with
  | nil => intro i j q h; simp [findQuestionAux] at h
  | cons a rest ih =>
      intro i j q h
      simp only [findQuestionAux] at h
      by_cases hc : conditionMet rs a = true
      · rw [if_pos hc] at h
        simp only [Option.some.injEq, Prod.mk.injEq] at h
        obtain ⟨rfl, rfl⟩ := h
        exact ⟨Nat.le_refl _, by simp, by simp, hc⟩
      · rw [if_neg hc] at h
        obtain ⟨h1, h2, h3, h4⟩ := ih (i + 1) j q h
        have hij : i ≤ j := by omega
        have hji : j - i = (j - (i + 1)) + 1 := by omega
        refine ⟨hij, ?_, ?_, h4⟩
        · simp only [List.length_cons]; omega
        · rw [hji]; simpa using h3

theorem findQuestion_some (rs : Responses) (qs : List Question) (i j : Nat) (q : Question)
    (h : findQuestion rs qs i = Option.some (j, q)) :
    i ≤ j ∧ j < qs.length ∧ qs.get? j = Option.some q ∧ conditionMet rs q = true := by
  obtain ⟨h1, h2, h3, h4⟩ := findQuestionAux_some rs (qs.drop i) i j q h
  rw [List.length_drop] at h2
  rw [List.get?_drop] at h3
  have hj : i + (j - i) = j := by omega
  rw [hj] at h3
  exact ⟨h1, by omega, h3, h4⟩

theorem findQuestion_at (rs : Responses) (qs : List Question) (j : Nat) (q : Question)
    (hj : j < qs.length) (hget : qs.get? j = Option.some q)
    (hc : conditionMet rs q = true) :
    findQuestion rs qs j = Option.some (j, q) := by
  unfold findQuestion
  rw [List.drop_eq_get_cons hj]
  have hq : qs.get ⟨j, hj⟩ = q := by
    have h' := List.get?_eq_get hj
    rw [h'] at hget
    exact Option.some.inj hget
  rw [hq]
  simp [findQuestionAux, hc]

theorem gcqGo_eq_stop (n : Nat) (s : FlowState)
    (h : ¬ s.currentCategoryIndex < categories.length) :
    gcqGo (n + 1) s = (Option.none, s) := by
  simp only [gcqGo]
  rw [dif_neg h]

theorem gcqGo_eq_found (n : Nat) (s : FlowState)
    (h : s.currentCategoryIndex < categories.length)
    (qs : List Question) (j : Nat) (q : Question)
    (hl : questions.lookup (categories.get ⟨s.currentCategoryIndex, h⟩).id = Option.some qs)
    (hf : findQuestion s.responses qs s.currentQuestionIndex = Option.some (j, q)) :
    gcqGo (n + 1) s = (Option.some q, { s with currentQuestionIndex := j }) := by
  simp only [gcqGo]
  rw [dif_pos h]
  simp only [hl, hf]

theorem gcqGo_eq_next_nofind (n : Nat) (s : FlowState)
    (h : s.currentCategoryIndex < categories.length)
    (qs : List Question)
    (hl : questions.lookup (categories.get ⟨s.currentCategoryIndex, h⟩).id = Option.some qs)
    (hf : findQuestion s.responses qs s.currentQuestionIndex = Option.none) :
    gcqGo (n + 1) s =
      gcqGo n { s with currentCategoryIndex := s.currentCategoryIndex + 1,
                       currentQuestionIndex := 0 } := by
  simp only [gcqGo]
  rw [dif_pos h]
  simp only [hl, hf]

theorem gcqGo_eq_next_nolookup (n : Nat) (s : FlowState)
    (h : s.currentCategoryIndex < categories.length)
    (hl : questions.lookup (categories.get ⟨s.currentCategoryIndex, h⟩).id = Option.none) :
    gcqGo (n + 1) s =
      gcqGo n { s with currentCategoryIndex := s.currentCategoryIndex + 1,
                       currentQuestionIndex := 0 } := by
  simp only [gcqGo]
  rw [dif_pos h]
  simp only [hl]

theorem gcqGo_post (n : Nat) : ∀ (s : FlowState),
    categories.length - s.currentCategoryIndex ≤ n → GcqPost s (gcqGo n s) := by
  induction n with
  | zero =>
      intro s hn
      refine ⟨rfl, rfl, rfl, rfl, Nat.le_refl _, fun _ => Nat.le_refl _, fun _ => ?_, fun q hq => ?_⟩
      · exact (show categories.length ≤ s.currentCategoryIndex by omega)
      · exact absurd hq (by simp [gcqGo])
  | succ n ih =>
      intro s hn
      by_cases h : s.currentCategoryIndex < categories.length
      · cases hl : questions.lookup (categories.get ⟨s.currentCategoryIndex, h⟩).id with
        | none =>
            rw [gcqGo_eq_next_nolookup n s h hl]
            have hpost := ih { s with currentCategoryIndex := s.currentCategoryIndex + 1,
                                      currentQuestionIndex := 0 } (by dsimp only; omega)
            obtain ⟨p1, p2, p3, p4, p5, p6, p7, p8⟩ := hpost
            dsimp only at p5
            refine ⟨p1, p2, p3, p4, by omega, fun he => by omega, p7, p8⟩
        | some qs =>
            cases hf : findQuestion s.responses qs s.currentQuestionIndex with
            | none =>
                rw [gcqGo_eq_next_nofind n s h qs hl hf]
                have hpost := ih { s with currentCategoryIndex := s.currentCategoryIndex + 1,
                                          currentQuestionIndex := 0 } (by dsimp only; omega)
                obtain ⟨p1, p2, p3, p4, p5, p6, p7, p8⟩ := hpost
                dsimp only at p5
                refine ⟨p1, p2, p3, p4, by omega, fun he => by omega, p7, p8⟩
            | some iq =>
                obtain ⟨j, q⟩ := iq
                rw [gcqGo_eq_found n s h qs j q hl hf]
                obtain ⟨hij, hjlt, hjget, hjc⟩ :=
                  findQuestion_some s.responses qs s.currentQuestionIndex j q hf
                refine ⟨rfl, rfl, rfl, rfl, Nat.le_refl _, fun _ => hij, fun habs => ?_, ?_⟩
                · exact absurd habs (by simp)
                · intro q' hq'
                  obtain rfl : q = q' := Option.some.inj hq'
                  exact ⟨h, qs, hl, hjlt, hjget, hjc⟩
      · rw [gcqGo_eq_stop n s h]
        refine ⟨rfl, rfl, rfl, rfl, Nat.le_refl _, fun _ => Nat.le_refl _,
          fun _ => (show categories.length ≤ s.currentCategoryIndex by omega),
          fun q hq => absurd hq (by simp)⟩

theorem get_current_question_post (s : FlowState) : GcqPost s (get_current_question s) :=
  gcqGo_post (categories.length - s.currentCategoryIndex) s (Nat.le_refl _)

theorem gcqGo_fuel : ∀ (n : Nat) (s : FlowState),
    categories.length - s.currentCategoryIndex ≤ n →
    gcqGo n s = get_current_question s := by
  intro n
  induction n using Nat.strong_induction_on with
  | _ n ih =>
      intro s hn
      cases n with
      | zero =>
          have h0 : categories.length - s.currentCategoryIndex = 0 := by omega
          unfold get_current_question
          rw [h0]
      | succ m =>
          by_cases h : s.currentCategoryIndex < categories.length
          · have hk : categories.length - s.currentCategoryIndex =
                (categories.length - (s.currentCategoryIndex + 1)) + 1 := by omega
            cases hl : questions.lookup (categories.get ⟨s.currentCategoryIndex, h⟩).id with
            | none =>
                rw [gcqGo_eq_next_nolookup m s h hl]
                unfold get_current_question
                rw [hk, gcqGo_eq_next_nolookup _ s h hl]
                have e1 := ih m (by omega)
                  { s with currentCategoryIndex := s.currentCategoryIndex + 1,
                           currentQuestionIndex := 0 } (by dsimp only; omega)
                have e2 := ih (categories.length - (s.currentCategoryIndex + 1)) (by omega)
                  { s with currentCategoryIndex := s.currentCategoryIndex + 1,
                           currentQuestionIndex := 0 } (by dsimp only; omega)
                rw [e1, e2]
            | some qs =>
                cases hf : findQuestion s.responses qs s.currentQuestionIndex with
                | none =>
                    rw [gcqGo_eq_next_nofind m s h qs hl hf]
                    unfold get_current_question
                    rw [hk, gcqGo_eq_next_nofind _ s h qs hl hf]
                    have e1 := ih m (by omega)
                      { s with currentCategoryIndex := s.currentCategoryIndex + 1,
                               currentQuestionIndex := 0 } (by dsimp only; omega)
                    have e2 := ih (categories.length - (s.currentCategoryIndex + 1)) (by omega)
                      { s with currentCategoryIndex := s.currentCategoryIndex + 1,
                               currentQuestionIndex := 0 } (by dsimp only; omega)
                    rw [e1, e2]
                | some iq =>
                    obtain ⟨j, q⟩ := iq
                    rw [gcqGo_eq_found m s h qs j q hl hf]
                    unfold get_current_question
                    rw [hk, gcqGo_eq_found _ s h qs j q hl hf]
          · rw [gcqGo_eq_stop m s h]
            have h0 : categories.length - s.currentCategoryIndex = 0 := by omega
            unfold get_current_question
            rw [h0]
            exact rfl

theorem process_response_catIdx (s : FlowState) (qid : String) (v : Value) (io : Bool)
    (ot : Option String) (now : Nat) :
    (process_response s qid v io ot now).1.currentCategoryIndex = s.currentCategoryIndex ∨
    (process_response s qid v io ot now).1.currentCategoryIndex = s.currentCategoryIndex + 1 := by
  unfold process_response
  dsimp only
  split
  · split
    · exact Or.inr rfl
    · exact Or.inl rfl
  · exact Or.inl rfl

theorem add_category_note_catIdx (s : FlowState) (cid txt : String) (now : Nat) :
    (add_category_note s cid txt now).currentCategoryIndex = s.currentCategoryIndex := rfl

theorem skip_category_catIdx (s : FlowState) (cid : String) :
    (skip_category s cid).currentCategoryIndex = s.currentCategoryIndex ∨
    (skip_category s cid).currentCategoryIndex = s.currentCategoryIndex + 1 := by
  unfold skip_category
  dsimp only
  split
  · split
    · exact Or.inr rfl
    · exact Or.inl rfl
  · exact Or.inl rfl

theorem step_catIdx_mono {s t : FlowState} (h : Step s t) :
    s.currentCategoryIndex ≤ t.currentCategoryIndex := by
  cases h with
  | current_question => exact (get_current_question_post s).2.2.2.2.1
  | answer qid v io ot hnow =>
      rcases process_response_catIdx s qid v io ot hnow with he | he <;> omega
  | note cid txt hnow => exact Nat.le_of_eq (add_category_note_catIdx s cid txt hnow).symm
  | skip cid => rcases skip_category_catIdx s cid with he | he <;> omega

theorem reach_catIdx_mono {s t : FlowState} (h : Reach s t) :
    s.currentCategoryIndex ≤ t.currentCategoryIndex := by
  induction h with
  | refl => exact Nat.le_refl _
  | tail _ hstep ih => exact le_trans ih (step_catIdx_mono hstep)

theorem reach_foldl_skip (ids : List String) :
    ∀ s : FlowState, Reach s (List.foldl skip_category s ids) := by
  induction ids with
  | nil => intro s; exact Relation.ReflTransGen.refl
  | cons a rest ih =>
      intro s
      exact Relation.ReflTransGen.head (Step.skip s a) (ih (skip_category s a))

theorem reach_foldl_ans (ids : List String) :
    ∀ s : FlowState, Reach s (List.foldl ansStep s ids) := by
  induction ids with
  | nil => intro s; exact Relation.ReflTransGen.refl
  | cons a rest ih =>
      intro s
      exact Relation.ReflTransGen.head
        (Step.answer s a (Value.str "any") false Option.none 0) (ih (ansStep s a))

/-- C1 (amended): a question returned by `get_current_question`
always passes its condition check in the sense the code implements: a
condition entry whose referenced answer is present in `responses` must
have its stored value in the allowed set, while a condition entry
whose referenced answer is absent is treated as satisfied (it does
not cause an auto-skip). -/
theorem current_question_condition_holds (s : FlowState) (q : Question) (t : FlowState)
    (h : get_current_question s = (Option.some q, t)) :
    conditionMet s.responses q = true := by
  have h1 : (get_current_question s).1 = Option.some q := by rw [h]
  obtain ⟨hh, qs, hl, hlt, hget, hcond⟩ :=
    (get_current_question_post s).2.2.2.2.2.2.2 q h1
  exact hcond

theorem current_question_condition_holds_witness :
    conditionMet (initFlow 0).responses profile_1 = true :=
  current_question_condition_holds (initFlow 0) profile_1 (initFlow 0) rfl

/-- C1 (counterexample): from a fresh flow, five answers submitted
under ids that never answer `budget_2` reach a state in which
`get_current_question` returns `budget_3` — a question carrying a
condition on `budget_2` — even though `budget_2` is absent from the
responses, contradicting the claim that such a question is auto-skipped
whenever the referenced answer is absent. -/
theorem condition_with_absent_answer_returned :
    Reach (initFlow 0) condGapState ∧
    (get_current_question condGapState).1 = Option.some budget_3 ∧
    budget_3.condition = Option.some [("budget_2", ["mortgage", "mix"])] ∧
    condGapState.responses.lookup "budget_2" = Option.none := by
  refine ⟨reach_foldl_ans ["x1", "x2", "x3", "x4", "x5"] (initFlow 0), rfl, rfl, rfl⟩

theorem process_response_ok_iff (s : FlowState) (qid : String) (v : Value)
    (io : Bool) (ot : Option String) (hnow : Nat) :
    (process_response s qid v io ot hnow).2 = true ↔ is_complete s = false := by
  by_cases h : s.currentCategoryIndex < categories.length
  · have h2 : (process_response s qid v io ot hnow).2 = true := by
      unfold process_response
      dsimp only
      rw [dif_pos h]
      split <;> rfl
    have h3 : is_complete s = false := decide_eq_false (by omega)
    rw [h2, h3]
    simp
  · have h2 : (process_response s qid v io ot hnow).2 = false := by
      unfold process_response
      dsimp only
      rw [dif_neg h]
    have h3 : is_complete s = true := decide_eq_true (by omega)
    rw [h2, h3]
    simp

theorem calculate_lead_score_le (rs : Responses) (n : Nat)
    (h : calculate_lead_score rs = Option.some n) : n ≤ 100 := by
  simp only [calculate_lead_score] at h
  split at h
  · exact absurd h (by simp)
  · split at h
    · exact absurd h (by simp)
    · obtain rfl := (Option.some.inj h).symm
      exact Nat.min_le_left _ _

theorem calculate_lead_score_isSome (rs : Responses) :
    (calculate_lead_score rs).isSome =
      (!isListValue (getValue rs "timeline_1") && !isListValue (getValue rs "decision_1")) := by
  cases htl : getValue rs "timeline_1" <;>
    cases hdc : getValue rs "decision_1" <;>
      simp [calculate_lead_score, htl, hdc, isListValue]

theorem categorize_user_isSome (rs : Responses) (notes : List (String × List (String × Nat)))
    (ci : Summary) (hnow : Nat) :
    (categorize_user rs notes ci hnow).isSome = (calculate_lead_score rs).isSome := by
  unfold categorize_user
  cases hcls : calculate_lead_score rs <;> simp

/-- C2 (amended): `submit_answer` returns normally exactly when the
flow is not complete (on a complete state it raises `IndexError` on
`self.categories[self.current_category_index]`, modelled by the
`false` flag), and `categorize` returns normally exactly when neither
`timeline_1` nor `decision_1` stores a list value (otherwise it raises
`TypeError` on an unhashable dict key, modelled by `Option.none`); all
remaining core operations are total Lean functions translated from the
source without any error path. -/
theorem core_operation_totality (s : FlowState) (qid : String) (v : Value)
    (io : Bool) (ot : Option String) (hnow : Nat) (rs : Responses)
    (notes : List (String × List (String × Nat))) (ci : Summary) :
    ((process_response s qid v io ot hnow).2 = true ↔ is_complete s = false) ∧
    ((categorize_user rs notes ci hnow).isSome = true ↔
      isListValue (getValue rs "timeline_1") = false ∧
      isListValue (getValue rs "decision_1") = false) := by
  refine ⟨process_response_ok_iff s qid v io ot hnow, ?_⟩
  rw [categorize_user_isSome, calculate_lead_score_isSome]
  simp

/-- C2 (counterexample): a reachable complete state on which
`process_response` raises (returns the `false` flag), and a reachable
answer set on which `categorize_user` raises `TypeError` (returns
`Option.none`) — contradicting the claim that every core operation
returns normally on every reachable state and argument value. -/
theorem process_response_after_complete_raises :
    Reach (initFlow 0) completedState ∧
    is_complete completedState = true ∧
    (process_response completedState "any_question" (Value.str "any") false
      Option.none 0).2 = false ∧
    categorize_user listTimelineState.responses listTimelineState.additionalNotes
      (get_summary listTimelineState 0) 0 = Option.none := by
  refine ⟨?_, rfl, rfl, rfl⟩
  exact reach_foldl_skip (categories.map (fun c => c.id)) (initFlow 0)

/-- C3 (amended): whenever the lead-scoring rubric computes a score at
all — it raises `TypeError`, computing nothing, exactly when
`timeline_1` or `decision_1` stores a list value — the score computed
by the Categorizer is an integer in the closed interval [0, 100]. -/
theorem lead_score_in_range (rs : Responses) (notes : List (String × List (String × Nat)))
    (ci : Summary) (hnow : Nat) (n : Nat)
    (h : (categorize_user rs notes ci hnow).map (fun r => r.lead_score) = Option.some n) :
    n ≤ 100 ∧ 0 ≤ n := by
  cases hcls : calculate_lead_score rs with
  | none =>
      have hcu : categorize_user rs notes ci hnow = Option.none := by
        unfold categorize_user
        rw [hcls]
      rw [hcu] at h
      exact absurd h (by simp)
  | some m =>
      have hcu : (categorize_user rs notes ci hnow).map (fun r => r.lead_score) =
          Option.some m := by
        unfold categorize_user
        rw [hcls]
        rfl
      rw [hcu] at h
      obtain rfl := (Option.some.inj h).symm
      exact ⟨calculate_lead_score_le rs n hcls, Nat.zero_le n⟩

theorem lead_score_in_range_witness : (3 : Nat) ≤ 100 ∧ (0 : Nat) ≤ 3 :=
  lead_score_in_range [] [] (get_summary (initFlow 0) 0) 0 3 rfl

/-- C3 (counterexample): on a reachable answer set whose `timeline_1`
value is a list, `_calculate_lead_score` raises `TypeError` at
`timeline_scores.get` (unhashable dict key) and the Categorizer
computes no lead score at all — so no integer in [0, 100] is computed
for that answer set, refuting the claim as stated over every answer
set. -/
theorem lead_score_raises_on_list :
    Reach (initFlow 0) listTimelineState ∧
    calculate_lead_score listTimelineState.responses = Option.none ∧
    categorize_user listTimelineState.responses listTimelineState.additionalNotes
      (get_summary listTimelineState 0) 0 = Option.none := by
  refine ⟨?_, rfl, rfl⟩
  exact Relation.ReflTransGen.tail Relation.ReflTransGen.refl
    (Step.answer (initFlow 0) "timeline_1" (Value.strList ["asap"]) false Option.none 0)

/-- C4 (amended): the Categorizer never throws for missing answers —
every lookup defaults to absent — and on the empty responses map it
returns the `info_seeker` buyer type, the `general_buyer` persona,
`low` urgency and exactly the default service needs
`{property_matching, viewing_arrangement}`; it is however not total
over arbitrary answer sets: a list value stored under `timeline_1` or
`decision_1` makes it raise `TypeError`. -/
theorem categorize_empty_defaults (notes : List (String × List (String × Nat)))
    (ci : Summary) (hnow : Nat) :
    (categorize_user [] notes ci hnow).map (fun r => r.buyer_type.type) =
      Option.some "info_seeker" ∧
    (categorize_user [] notes ci hnow).map (fun r => r.persona.type) =
      Option.some "general_buyer" ∧
    (categorize_user [] notes ci hnow).map (fun r => r.urgency_level.level) =
      Option.some "low" ∧
    (categorize_user [] notes ci hnow).map (fun r => r.service_needs) =
      Option.some ["property_matching", "viewing_arrangement"] :=
  ⟨rfl, rfl, rfl, rfl⟩

/-- C4 (counterexample): the Categorizer is not total over any input
answer set — on an answer set with a list value under `decision_1` the
source raises `TypeError` at `decision_scores.get` and
`categorize_user` returns no result. -/
theorem categorize_raises_on_list_value :
    calculate_lead_score listDecisionResponses = Option.none ∧
    categorize_user listDecisionResponses [] (get_summary (initFlow 0) 0) 0 =
      Option.none :=
  ⟨rfl, rfl⟩

/-- C5: the family-focused predicate is evaluated first, so whenever
`profile_3 = "family"` or `lifestyle_1` is `"very_important"` or
`"somewhat"`, the returned persona is `family_focused` regardless of
every other answer. -/
theorem persona_family_first (rs : Responses)
    (h : getValue rs "profile_3" = Value.str "family" ∨
         getValue rs "lifestyle_1" = Value.str "very_important" ∨
         getValue rs "lifestyle_1" = Value.str "somewhat") :
    (identify_persona rs).type = "family_focused" := by
  have hc : (getValue rs "profile_3" == Value.str "family" ||
      valueInStrList (getValue rs "lifestyle_1") ["very_important", "somewhat"]) = true := by
    rcases h with h | h | h <;> simp [h, valueInStrList]
  simp [identify_persona, hc]

theorem persona_family_first_witness :
    (identify_persona familyResponses).type = "family_focused" :=
  persona_family_first familyResponses (Or.inl rfl)

/-- C6: `restart_flow` resets the cursor to (0, 0) and the start time
to the current time, and leaves `responses`, `additional_notes` and
`skipped_categories` exactly unchanged. -/
theorem restart_resets_cursor_preserves_data (s : FlowState) (now : Nat) :
    (restart_flow s now).currentCategoryIndex = 0 ∧
    (restart_flow s now).currentQuestionIndex = 0 ∧
    (restart_flow s now).startTime = now ∧
    (restart_flow s now).responses = s.responses ∧
    (restart_flow s now).additionalNotes = s.additionalNotes ∧
    (restart_flow s now).skippedCategories = s.skippedCategories :=
  ⟨rfl, rfl, rfl, rfl, rfl, rfl⟩

/-- C7 (amended): `skipped_categories` is an ordered list to which
`skip_category` appends its argument unconditionally, so skipping the
same category id twice records two entries (it is not a duplicate-free
set). -/
theorem skip_category_appends (s : FlowState) (cid : String) :
    (skip_category s cid).skippedCategories = s.skippedCategories ++ [cid] := by
  unfold skip_category
  dsimp only
  split
  · split
    · rfl
    · rfl
  · rfl

/-- C7 (counterexample): calling `skip_category "budget"` twice from a
fresh flow produces the list `["budget", "budget"]`, which has
duplicate entries — contradicting the claim that `skipped_categories`
never contains duplicates in reachable states. -/
theorem skip_category_duplicate_entries :
    doubleSkipState.skippedCategories = ["budget", "budget"] ∧
    ¬ doubleSkipState.skippedCategories.Nodup ∧
    Reach (initFlow 0) doubleSkipState := by
  refine ⟨rfl, by decide, ?_⟩
  exact Relation.ReflTransGen.tail
    (Relation.ReflTransGen.tail Relation.ReflTransGen.refl (Step.skip (initFlow 0) "budget"))
    (Step.skip (skip_category (initFlow 0) "budget") "budget")

/-- C8: `get_current_question` is idempotent — a second call on the
state produced by a first call returns the same question (or none) and
leaves the state unchanged. -/
theorem current_question_idempotent (s : FlowState) :
    get_current_question (get_current_question s).2 =
      ((get_current_question s).1, (get_current_question s).2) := by
  obtain ⟨hresp, hnotes, hskip, hstart, hmono, hqmono, hnone, hsome⟩ :=
    get_current_question_post s
  cases hr : (get_current_question s).1 with
  | none =>
      have hc := hnone hr
      have h0 : categories.length - (get_current_question s).2.currentCategoryIndex = 0 := by
        omega
      calc get_current_question (get_current_question s).2
          = gcqGo (categories.length - (get_current_question s).2.currentCategoryIndex)
              (get_current_question s).2 := rfl
        _ = gcqGo 0 (get_current_question s).2 := by rw [h0]
        _ = (Option.none, (get_current_question s).2) := rfl
  | some q =>
      obtain ⟨h, qs, hl, hlt, hget, hcond⟩ := hsome q hr
      have hk : categories.length - (get_current_question s).2.currentCategoryIndex =
          (categories.length - ((get_current_question s).2.currentCategoryIndex + 1)) + 1 := by
        omega
      have hf : findQuestion (get_current_question s).2.responses qs
          (get_current_question s).2.currentQuestionIndex =
          Option.some ((get_current_question s).2.currentQuestionIndex, q) := by
        rw [hresp]
        exact findQuestion_at s.responses qs _ q hlt hget hcond
      calc get_current_question (get_current_question s).2
          = gcqGo (categories.length - (get_current_question s).2.currentCategoryIndex)
              (get_current_question s).2 := rfl
        _ = gcqGo ((categories.length - ((get_current_question s).2.currentCategoryIndex + 1)) + 1)
              (get_current_question s).2 := by rw [hk]
        _ = (Option.some q, { (get_current_question s).2 with
              currentQuestionIndex := (get_current_question s).2.currentQuestionIndex }) :=
            gcqGo_eq_found _ _ h qs _ q hl hf
        _ = (Option.some q, (get_current_question s).2) := rfl

/-- C9: `is_complete` holds exactly when the cursor's category index
has reached the catalog length, and it is monotonic along any sequence
of core operations excluding `restart_flow`. -/
theorem is_complete_iff_and_monotone :
    (∀ s : FlowState, is_complete s = true ↔
      categories.length ≤ s.currentCategoryIndex) ∧
    (∀ s t : FlowState, is_complete s = true → Reach s t → is_complete t = true) := by
  constructor
  · intro s
    simp [is_complete]
  · intro s t hs hr
    have h1 : categories.length ≤ s.currentCategoryIndex := by
      simpa [is_complete] using hs
    have h2 := reach_catIdx_mono hr
    simp only [is_complete, decide_eq_true_eq]
    omega

theorem is_complete_iff_and_monotone_witness : is_complete completedState = true :=
  is_complete_iff_and_monotone.2 completedState completedState
    ((is_complete_iff_and_monotone.1 completedState).mpr (by decide))
    Relation.ReflTransGen.refl

/-- C10: the traversal of `get_current_question` terminates within
fuel bounded by the catalog length (any fuel at least
`categories.length - current_category_index` computes the same result
as the bounded recursion), and the cursor never moves backward during
the call. -/
theorem current_question_terminates (s : FlowState) (n : Nat) :
    (categories.length - s.currentCategoryIndex ≤ n →
      gcqGo n s = get_current_question s) ∧
    s.currentCategoryIndex ≤ (get_current_question s).2.currentCategoryIndex ∧
    ((get_current_question s).2.currentCategoryIndex = s.currentCategoryIndex →
      s.currentQuestionIndex ≤ (get_current_question s).2.currentQuestionIndex) :=
  ⟨fun hn => gcqGo_fuel n s hn, (get_current_question_post s).2.2.2.2.1,
    (get_current_question_post s).2.2.2.2.2.1⟩

theorem current_question_terminates_witness :
    gcqGo 10 (initFlow 0) = get_current_question (initFlow 0) :=
  (current_question_terminates (initFlow 0) 10).1 (by decide)

end EasyBuy
